import Mathlib

/-!
Verification of the diem off-chain payment protocol engine
(`src/diem/offchain/client.py`) against its specification.

The engine is shallowly embedded: every Python function becomes a pure Lean
function; Python `raise` becomes `Except`; the external collaborators
(ledger query port, identifier codec, JWS envelope, Ed25519 verification,
HTTP transport) become explicit parameters, since their code is outside the
excerpt and the spec declares them external interfaces.  Python `int` is
modelled as `ℤ`; the exchange rate (a number transported over JSON-RPC) is
modelled as an exact rational `ℚ`.
-/

namespace DiemOffchain

/-- Modelled from the spec: the two error families of `diem.offchain.error`
(`error.py` is not under `src/`): protocol-level and command-level. -/
inductive ErrorType where
  | protocol
  | command
deriving DecidableEq, Repr

/-- Modelled from the spec: the exhaustive, closed error code enumeration of
section 6 (the `ErrorCode` constants of `diem.offchain.types`, not under `src/`). -/
inductive ErrorCode where
  | missing_http_header
  | invalid_http_header
  | unknown_command_type
  | invalid_json
  | invalid_jws
  | invalid_jws_signature
  | invalid_field_value
  | unsupported_currency
  | no_kyc_needed
  | invalid_recipient_signature
  | unknown_address
deriving DecidableEq, Repr

/-- Modelled from the spec: a structured offchain error carrying its family,
a code, a human message and an optional dotted field path
(`diem.offchain.error.Error`, not under `src/`). -/
structure OffchainErrorObject where
  typ : ErrorType
  code : ErrorCode
  message : String
  field : Option String
deriving DecidableEq, Repr

/-- Modelled from the spec: `diem.offchain.error.command_error` constructs a
command-level error (not under `src/`; call sites in `client.py` pass code,
message and an optional field path). -/
def command_error (code : ErrorCode) (message : String) (field : Option String) :
    OffchainErrorObject :=
  ⟨ErrorType.command, code, message, field⟩

/-- Modelled from the spec: `diem.offchain.error.protocol_error` constructs a
protocol-level error (not under `src/`). -/
def protocol_error (code : ErrorCode) (message : String) (field : Option String) :
    OffchainErrorObject :=
  ⟨ErrorType.protocol, code, message, field⟩

/-- `diem.jsonrpc.CurrencyInfo` as consumed by `client.py`: a currency code with
its exchange rate to the reference currency (`to_xdx_exchange_rate`), the rate
modelled as an exact rational. -/
structure CurrencyInfo where
  code : String
  to_xdx_exchange_rate : ℚ
deriving DecidableEq, Repr

/-- `diem.jsonrpc.Metadata` as consumed by `client.py`: only the
network-wide dual attestation limit is read. -/
structure Metadata where
  dual_attestation_limit : ℤ
deriving DecidableEq, Repr

/-- `client.py` line 359: `_is_under_the_threshold(limit, rate, amount)` is
`math.ceil(rate * amount) < limit`. -/
def _is_under_the_threshold (limit : ℤ) (rate : ℚ) (amount : ℤ) : Bool :=
  decide (⌈rate * (amount : ℚ)⌉ < limit)

/-- `client.py` line 329: keep the ledger-known `codes` that are allowed by the
configured `supported_codes` list; an unconfigured (`None`) list allows all. -/
def _filter_supported_currency_codes (supported_codes : Option (List String))
    (codes : List String) : List String :=
  codes.filter fun code =>
    match supported_codes with
    | none => true
    | some scs => scs.contains code

/-- The two `ValueError` subclasses raised by `validate_currency_code`
(`client.py` lines 47-52), each carrying its message. -/
inductive CurrencyCodeError where
  | invalidCode (message : String)
  | unsupportedCode (message : String)
deriving DecidableEq, Repr

/-- `client.py` line 270: `validate_currency_code` raises
`InvalidCurrencyCodeError` for a code not in the ledger currency list, then
`UnsupportedCurrencyCodeError` for a code outside the supported set. -/
def validate_currency_code (supported_currency_codes : Option (List String))
    (currency : String) (currencies : List CurrencyInfo) :
    Except CurrencyCodeError Unit :=
  let currency_codes := currencies.map CurrencyInfo.code
  let supported_codes := _filter_supported_currency_codes supported_currency_codes currency_codes
  if currency ∉ currency_codes then
    Except.error (CurrencyCodeError.invalidCode ("currency code is invalid: " ++ currency))
  else if currency ∉ supported_codes then
    Except.error (CurrencyCodeError.unsupportedCode ("currency code is not supported: " ++ currency))
  else Except.ok ()

/-- The message built at `client.py` line 264 when a payment is under the
travel rule threshold. -/
def underThresholdMessage (amount : ℤ) (rate : ℚ) (limit : ℤ) : String :=
  "payment amount is " ++ toString amount ++ " (rate: " ++ toString rate ++
    ") under travel rule threshold " ++ toString limit

/-- The `for info in currencies` loop of `client.py` lines 261-268: return the
descriptive message at the first entry whose code matches and whose rate puts
the amount under the threshold. -/
def find_under_threshold_message (limit : ℤ) (currency : String) (amount : ℤ) :
    List CurrencyInfo → Option String
  | [] => none
  | info :: rest =>
    if info.code = currency then
      if _is_under_the_threshold limit info.to_xdx_exchange_rate amount then
        some (underThresholdMessage amount info.to_xdx_exchange_rate limit)
      else find_under_threshold_message limit currency amount rest
    else find_under_threshold_message limit currency amount rest

/-- `client.py` line 250: `is_under_dual_attestation_limit` validates the
currency code (wrapping the two `ValueError`s as command errors at
`command.payment.action.currency`), then scans the currency list against the
network dual attestation limit.  The ledger reads `get_currencies()` and
`get_metadata()` are passed in as the values they returned. -/
def is_under_dual_attestation_limit (supported_currency_codes : Option (List String))
    (currencies : List CurrencyInfo) (metadata : Metadata)
    (currency : String) (amount : ℤ) :
    Except OffchainErrorObject (Option String) :=
  match validate_currency_code supported_currency_codes currency currencies with
  | Except.error (CurrencyCodeError.invalidCode msg) =>
      Except.error (command_error ErrorCode.invalid_field_value msg
        (some "command.payment.action.currency"))
  | Except.error (CurrencyCodeError.unsupportedCode msg) =>
      Except.error (command_error ErrorCode.unsupported_currency msg
        (some "command.payment.action.currency"))
  | Except.ok _ =>
      Except.ok (find_under_threshold_message metadata.dual_attestation_limit currency amount
        currencies)

/-- Modelled from the spec: `PaymentActionObject` of `diem.offchain.types`
(not under `src/`): an integer amount in atomic units and a currency code. -/
structure PaymentActionObject where
  amount : ℤ
  currency : String
deriving DecidableEq, Repr

/-- `client.py` line 245: raise command error `no_kyc_needed` at
`command.payment.action.amount` exactly when `is_under_dual_attestation_limit`
returns a message. -/
def validate_dual_attestation_limit_by_action
    (supported_currency_codes : Option (List String))
    (currencies : List CurrencyInfo) (metadata : Metadata)
    (action : PaymentActionObject) : Except OffchainErrorObject Unit :=
  match is_under_dual_attestation_limit supported_currency_codes currencies metadata
      action.currency action.amount with
  | Except.error e => Except.error e
  | Except.ok (some msg) =>
      Except.error (command_error ErrorCode.no_kyc_needed msg
        (some "command.payment.action.amount"))
  | Except.ok none => Except.ok ()

/-! ### Helper lemmas about the currency scan -/

theorem validate_currency_code_ok_mem
    {supported : Option (List String)} {currency : String} {currencies : List CurrencyInfo}
    (h : validate_currency_code supported currency currencies = Except.ok ()) :
    currency ∈ currencies.map CurrencyInfo.code := by
  by_contra hmem
  simp only [validate_currency_code, if_pos hmem] at h
  exact Except.noConfusion h

theorem find_some_of_mem_under
    (limit : ℤ) (currency : String) (amount : ℤ) (rate : ℚ)
    (currencies : List CurrencyInfo)
    (hmem : currency ∈ currencies.map CurrencyInfo.code)
    (hrateq : ∀ info ∈ currencies, info.code = currency → info.to_xdx_exchange_rate = rate)
    (hunder : ⌈rate * (amount : ℚ)⌉ < limit) :
    find_under_threshold_message limit currency amount currencies
      = some (underThresholdMessage amount rate limit) := by
  induction currencies with
  | nil => simp at hmem
  | cons info rest ih =>
    simp only [List.map_cons, List.mem_cons] at hmem
    by_cases hcode : info.code = currency
    · have hr : info.to_xdx_exchange_rate = rate :=
        hrateq info (List.mem_cons_self _ _) hcode
      have hb : _is_under_the_threshold limit rate amount = true := by
        simp [_is_under_the_threshold, hunder]
      simp only [find_under_threshold_message, if_pos hcode, hr, hb, if_true]
    · have hmem' : currency ∈ rest.map CurrencyInfo.code := by
        rcases hmem with h | h
        · exact absurd h.symm hcode
        · exact h
      have ih' := ih hmem' (fun i hi => hrateq i (List.mem_cons_of_mem _ hi))
      simp only [find_under_threshold_message, if_neg hcode, ih']

theorem find_none_of_not_under
    (limit : ℤ) (currency : String) (amount : ℤ) (rate : ℚ)
    (currencies : List CurrencyInfo)
    (hrateq : ∀ info ∈ currencies, info.code = currency → info.to_xdx_exchange_rate = rate)
    (hnot : ¬ ⌈rate * (amount : ℚ)⌉ < limit) :
    find_under_threshold_message limit currency amount currencies = none := by
  induction currencies with
  | nil => rfl
  | cons info rest ih =>
    have ih' := ih (fun i hi => hrateq i (List.mem_cons_of_mem _ hi))
    by_cases hcode : info.code = currency
    · have hr : info.to_xdx_exchange_rate = rate :=
        hrateq info (List.mem_cons_self _ _) hcode
      have hb : _is_under_the_threshold limit rate amount = false := by
        simp [_is_under_the_threshold, hnot]
      simp only [find_under_threshold_message, if_pos hcode, hr, hb, if_false, ih']
      simp
    · simp only [find_under_threshold_message, if_neg hcode, ih']

/-! ### Claims C1, C9, C10 -/

/-- C1: for every positive exchange rate and positive network limit, a payment
of integer amount in a valid, supported currency is classified as under the
threshold by `_is_under_the_threshold` iff `ceil(rate * amount) < limit`, and
in exactly that case `validate_dual_attestation_limit_by_action` raises the
command-level error `no_kyc_needed` at field `command.payment.action.amount`;
otherwise it returns normally. -/
theorem dual_attestation_threshold_characterization
    (supported : Option (List String)) (currencies : List CurrencyInfo)
    (metadata : Metadata) (action : PaymentActionObject) (rate : ℚ)
    (hrate : 0 < rate) (hlimit : 0 < metadata.dual_attestation_limit)
    (hvalid : validate_currency_code supported action.currency currencies = Except.ok ())
    (hrateq : ∀ info ∈ currencies, info.code = action.currency →
      info.to_xdx_exchange_rate = rate) :
    (_is_under_the_threshold metadata.dual_attestation_limit rate action.amount = true
        ↔ ⌈rate * (action.amount : ℚ)⌉ < metadata.dual_attestation_limit)
    ∧ (⌈rate * (action.amount : ℚ)⌉ < metadata.dual_attestation_limit
        → validate_dual_attestation_limit_by_action supported currencies metadata action
            = Except.error (command_error ErrorCode.no_kyc_needed
                (underThresholdMessage action.amount rate metadata.dual_attestation_limit)
                (some "command.payment.action.amount")))
    ∧ (¬ ⌈rate * (action.amount : ℚ)⌉ < metadata.dual_attestation_limit
        → validate_dual_attestation_limit_by_action supported currencies metadata action
            = Except.ok ()) := by
  refine ⟨by simp [_is_under_the_threshold], ?_, ?_⟩
  · intro hunder
    have hmem := validate_currency_code_ok_mem hvalid
    have hfind := find_some_of_mem_under metadata.dual_attestation_limit action.currency
      action.amount rate currencies hmem hrateq hunder
    simp only [validate_dual_attestation_limit_by_action, is_under_dual_attestation_limit,
      hvalid, hfind]
  · intro hnot
    have hfind := find_none_of_not_under metadata.dual_attestation_limit action.currency
      action.amount rate currencies hrateq hnot
    simp only [validate_dual_attestation_limit_by_action, is_under_dual_attestation_limit,
      hvalid, hfind]

/-- Witness for C1: currency "XUS" at rate 1, limit 10, amount 5: the payment
is under the threshold and the `no_kyc_needed` command error is raised. -/
theorem dual_attestation_threshold_characterization_witness :
    validate_dual_attestation_limit_by_action none [⟨"XUS", 1⟩] ⟨10⟩ ⟨5, "XUS"⟩
      = Except.error (command_error ErrorCode.no_kyc_needed
          (underThresholdMessage 5 1 10) (some "command.payment.action.amount")) :=
  (dual_attestation_threshold_characterization none [⟨"XUS", 1⟩] ⟨10⟩ ⟨5, "XUS"⟩ 1
    (by norm_num) (by norm_num) (by rfl)
    (by intro info hinfo hcode; simp at hinfo; simp [hinfo])).2.1 (by norm_num)

/-- C9: during dual-attestation evaluation, a currency code outside the
ledger currency list raises command error `invalid_field_value`, a ledger-known
code outside the configured supported set raises `unsupported_currency`, and
with no configured allowlist the supported set equals the full ledger list, so
every ledger-known code passes validation. -/
theorem currency_validation_characterization
    (supported : Option (List String)) (currencies : List CurrencyInfo)
    (metadata : Metadata) (currency : String) (amount : ℤ) :
    (currency ∉ currencies.map CurrencyInfo.code →
      is_under_dual_attestation_limit supported currencies metadata currency amount
        = Except.error (command_error ErrorCode.invalid_field_value
            ("currency code is invalid: " ++ currency)
            (some "command.payment.action.currency")))
    ∧ (currency ∈ currencies.map CurrencyInfo.code →
      currency ∉ _filter_supported_currency_codes supported (currencies.map CurrencyInfo.code) →
      is_under_dual_attestation_limit supported currencies metadata currency amount
        = Except.error (command_error ErrorCode.unsupported_currency
            ("currency code is not supported: " ++ currency)
            (some "command.payment.action.currency")))
    ∧ (_filter_supported_currency_codes none (currencies.map CurrencyInfo.code)
        = currencies.map CurrencyInfo.code)
    ∧ (currency ∈ currencies.map CurrencyInfo.code →
      validate_currency_code none currency currencies = Except.ok ()) := by
  refine ⟨?_, ?_, ?_, ?_⟩
  · intro hmem
    simp only [is_under_dual_attestation_limit, validate_currency_code, if_pos hmem]
  · intro hmem hsup
    simp only [is_under_dual_attestation_limit, validate_currency_code, hmem,
      not_true_eq_false, if_false, if_pos hsup]
  · simp [_filter_supported_currency_codes]
  · intro hmem
    have hsup : currency ∈ _filter_supported_currency_codes none
        (currencies.map CurrencyInfo.code) := by
      simpa [_filter_supported_currency_codes] using hmem
    simp only [validate_currency_code, hmem, hsup, not_true_eq_false, if_false]

/-- Witness for C9: with ledger list ["XUS"] and allowlist ["XDX"], code "BTC"
is rejected as invalid, code "XUS" as unsupported, and with no allowlist "XUS"
passes. -/
theorem currency_validation_characterization_witness :
    (is_under_dual_attestation_limit (some ["XDX"]) [⟨"XUS", 1⟩] ⟨10⟩ "BTC" 5
        = Except.error (command_error ErrorCode.invalid_field_value
            ("currency code is invalid: " ++ "BTC")
            (some "command.payment.action.currency")))
    ∧ (is_under_dual_attestation_limit (some ["XDX"]) [⟨"XUS", 1⟩] ⟨10⟩ "XUS" 5
        = Except.error (command_error ErrorCode.unsupported_currency
            ("currency code is not supported: " ++ "XUS")
            (some "command.payment.action.currency")))
    ∧ validate_currency_code none "XUS" [⟨"XUS", 1⟩] = Except.ok () := by
  refine ⟨?_, ?_, ?_⟩
  · exact (currency_validation_characterization (some ["XDX"]) [⟨"XUS", 1⟩] ⟨10⟩ "BTC" 5).1
      (by decide)
  · exact (currency_validation_characterization (some ["XDX"]) [⟨"XUS", 1⟩] ⟨10⟩ "XUS" 5).2.1
      (by decide) (by decide)
  · exact (currency_validation_characterization none [⟨"XUS", 1⟩] ⟨10⟩ "XUS" 5).2.2.2
      (by decide)

/-- C10: a currency code absent from the ledger list always yields the
invalid-currency command error `invalid_field_value`, never
`unsupported_currency`, whatever allowlist is configured: the ledger-membership
check is decided first, and the supported set is always a subset of the
ledger-known codes. -/
theorem unknown_currency_always_invalid
    (supported : Option (List String)) (currencies : List CurrencyInfo)
    (metadata : Metadata) (currency : String) (amount : ℤ)
    (h : currency ∉ currencies.map CurrencyInfo.code) :
    is_under_dual_attestation_limit supported currencies metadata currency amount
      = Except.error (command_error ErrorCode.invalid_field_value
          ("currency code is invalid: " ++ currency)
          (some "command.payment.action.currency"))
    ∧ ∀ scs codes, _filter_supported_currency_codes scs codes ⊆ codes := by
  constructor
  · simp only [is_under_dual_attestation_limit, validate_currency_code, if_pos h]
  · intro scs codes
    exact List.filter_subset' _

/-- Witness for C10: code "BTC", absent from ledger list ["XUS"], with an
allowlist that also excludes it, is rejected as invalid, not unsupported. -/
theorem unknown_currency_always_invalid_witness :
    is_under_dual_attestation_limit (some ["XDX"]) [⟨"XUS", 1⟩] ⟨10⟩ "BTC" 5
      = Except.error (command_error ErrorCode.invalid_field_value
          ("currency code is invalid: " ++ "BTC")
          (some "command.payment.action.currency"))
    ∧ ∀ scs codes, _filter_supported_currency_codes scs codes ⊆ codes :=
  unknown_currency_always_invalid (some ["XDX"]) [⟨"XUS", 1⟩] ⟨10⟩ "BTC" 5 (by decide)

/-! ### Payment data model and address ownership -/

/-- Modelled from the spec: `PaymentActorObject` of `diem.offchain.types`
(not under `src/`): an encoded account identifier and a status. -/
structure PaymentActorObject where
  address : String
  status : String
deriving DecidableEq, Repr

/-- Modelled from the spec: `PaymentObject` of `diem.offchain.types`
(not under `src/`). -/
structure PaymentObject where
  sender : PaymentActorObject
  receiver : PaymentActorObject
  action : PaymentActionObject
  recipient_signature : Option String
  reference_id : String
  original_payment_reference_id : Option String
deriving DecidableEq, Repr

/-- Modelled from the spec: `diem.offchain.payment_command.PaymentCommand`
(not under `src/`; constructed in `client.py` line 306 with keyword fields
`cid`, `my_actor_address`, `payment`, `inbound`). -/
structure PaymentCommand where
  cid : String
  my_actor_address : String
  payment : PaymentObject
  inbound : Bool
deriving DecidableEq, Repr

/-- `diem.jsonrpc.AccountRole` as consumed by `client.py`: only the
`parent_vasp_address` field is read; the protobuf empty/absent value is
modelled as `none`. -/
structure AccountRole (Addr : Type) where
  parent_vasp_address : Option Addr
deriving DecidableEq

/-- `diem.jsonrpc.Account` as consumed by `client.py`. -/
structure Account (Addr : Type) where
  role : AccountRole Addr
deriving DecidableEq

/-- A Python exception escaping a `client.py` method: either an uncaught
`ValueError` (for instance from `identifier.decode_account`) or a structured
offchain error. -/
inductive PythonError where
  | valueError (message : String)
  | offchain (e : OffchainErrorObject)
deriving DecidableEq, Repr

/-- `client.py` line 312: `is_my_account_id` decodes the account identifier
(an uncaught `ValueError` when it does not decode), answers `true` when the
decoded address re-encodes to the local compliance-key account id, otherwise
looks the address up on the ledger and answers whether its declared
parent-VASP address re-encodes to the local compliance-key account id.
The external identifier codec and ledger lookup are parameters:
`decode_account` models `identifier.decode_account(account_id, hrp)` (the
address part, `none` for a `ValueError`), `account_id_of` models
`self.account_id` = `identifier.encode_account(address, None, hrp)`, and
`get_account` models `jsonrpc_client.get_account`. -/
def is_my_account_id {Addr : Type}
    (decode_account : String → Option Addr) (account_id_of : Addr → String)
    (get_account : Addr → Option (Account Addr))
    (my_compliance_key_account_id : String) (acct_id : String) :
    Except String Bool :=
  match decode_account acct_id with
  | none => Except.error ("invalid account identifier: " ++ acct_id)
  | some account_address =>
    if my_compliance_key_account_id = account_id_of account_address then Except.ok true
    else
      match get_account account_address with
      | some account =>
        match account.role.parent_vasp_address with
        | some parent =>
            Except.ok (decide (my_compliance_key_account_id = account_id_of parent))
        | none => Except.ok false
      | none => Except.ok false

/-- `client.py` line 304: `create_inbound_payment_command` builds the inbound
`PaymentCommand` around the first actor address (sender preferred) that
`is_my_account_id` resolves to the local party, and raises command error
`unknown_address` when neither resolves. -/
def create_inbound_payment_command {Addr : Type}
    (decode_account : String → Option Addr) (account_id_of : Addr → String)
    (get_account : Addr → Option (Account Addr))
    (my_compliance_key_account_id : String)
    (cid : String) (obj : PaymentObject) : Except PythonError PaymentCommand :=
  match is_my_account_id decode_account account_id_of get_account
      my_compliance_key_account_id obj.sender.address with
  | Except.error e => Except.error (PythonError.valueError e)
  | Except.ok true =>
      Except.ok ⟨cid, obj.sender.address, obj, true⟩
  | Except.ok false =>
    match is_my_account_id decode_account account_id_of get_account
        my_compliance_key_account_id obj.receiver.address with
    | Except.error e => Except.error (PythonError.valueError e)
    | Except.ok true =>
        Except.ok ⟨cid, obj.receiver.address, obj, true⟩
    | Except.ok false =>
        Except.error (PythonError.offchain (command_error ErrorCode.unknown_address
          "unknown actor addresses: {obj}" none))

/-- `client.py` line 287: `validate_actor_address` decodes the declared
encoded account identifier and wraps a decode failure as command error
`invalid_field_value` at `command.payment.<actor>.address`. -/
def validate_actor_address {Addr : Type} (decode_account : String → Option Addr)
    (actor_name : String) (actor : PaymentActorObject) :
    Except OffchainErrorObject Unit :=
  match decode_account actor.address with
  | some _ => Except.ok ()
  | none => Except.error (command_error ErrorCode.invalid_field_value
      ("could not decode account identifier: " ++ actor.address)
      (some ("command.payment." ++ actor_name ++ ".address")))

/-- `client.py` line 297: `validate_request_sender_address` raises command
error `invalid_http_header` (no field path) when the claimed request sender
address is not one of the given actor addresses. -/
def validate_request_sender_address (request_sender_address : String)
    (addresses : List String) : Except OffchainErrorObject Unit :=
  if request_sender_address ∈ addresses then Except.ok ()
  else Except.error (command_error ErrorCode.invalid_http_header
      ("address " ++ request_sender_address ++ " is not one of " ++ toString addresses)
      none)

/-- `client.py` line 282: `validate_addresses` validates both actor addresses,
then checks the claimed request sender address against them. -/
def validate_addresses {Addr : Type} (decode_account : String → Option Addr)
    (payment : PaymentObject) (request_sender_address : String) :
    Except OffchainErrorObject Unit :=
  match validate_actor_address decode_account "sender" payment.sender with
  | Except.error e => Except.error e
  | Except.ok _ =>
    match validate_actor_address decode_account "receiver" payment.receiver with
    | Except.error e => Except.error e
    | Except.ok _ =>
        validate_request_sender_address request_sender_address
          [payment.sender.address, payment.receiver.address]

/-! ### Claims C4, C5, C3 -/

/-- C4: when both actor addresses decode, `validate_addresses` raises command
error `invalid_http_header` exactly when the claimed sender address equals
neither the sender address of the payment nor its receiver address (no signature is
involved at all), and returns normally exactly when it equals one of the
two. -/
theorem validate_addresses_sender_claim {Addr : Type}
    (decode_account : String → Option Addr) (payment : PaymentObject)
    (claimed : String)
    (hs : (decode_account payment.sender.address).isSome = true)
    (hr : (decode_account payment.receiver.address).isSome = true) :
    (claimed ≠ payment.sender.address → claimed ≠ payment.receiver.address →
      validate_addresses decode_account payment claimed
        = Except.error (command_error ErrorCode.invalid_http_header
            ("address " ++ claimed ++ " is not one of "
              ++ toString [payment.sender.address, payment.receiver.address])
            none))
    ∧ ((claimed = payment.sender.address ∨ claimed = payment.receiver.address) →
      validate_addresses decode_account payment claimed = Except.ok ()) := by
  rcases Option.isSome_iff_exists.mp hs with ⟨a, ha⟩
  rcases Option.isSome_iff_exists.mp hr with ⟨b, hb⟩
  have hva : validate_actor_address decode_account "sender" payment.sender
      = Except.ok () := by
    simp only [validate_actor_address, ha]
  have hvb : validate_actor_address decode_account "receiver" payment.receiver
      = Except.ok () := by
    simp only [validate_actor_address, hb]
  constructor
  · intro h1 h2
    have hmem : claimed ∉ [payment.sender.address, payment.receiver.address] := by
      simp [h1, h2]
    simp only [validate_addresses, hva, hvb, validate_request_sender_address,
      if_neg hmem]
  · intro hor
    have hmem : claimed ∈ [payment.sender.address, payment.receiver.address] := by
      simpa using hor
    simp only [validate_addresses, hva, hvb, validate_request_sender_address,
      if_pos hmem]

/-- Witness for C4: with a codec that decodes everything, claiming address "c"
against a payment between "a" and "b" is rejected with `invalid_http_header`,
and claiming "a" passes. -/
theorem validate_addresses_sender_claim_witness :
    (validate_addresses (fun _ => some 0)
        ⟨⟨"a", "init"⟩, ⟨"b", "init"⟩, ⟨5, "XUS"⟩, none, "rid", none⟩ "c"
      = Except.error (command_error ErrorCode.invalid_http_header
          ("address " ++ "c" ++ " is not one of " ++ toString ["a", "b"]) none))
    ∧ (validate_addresses (fun _ => some (0 : ℕ))
        ⟨⟨"a", "init"⟩, ⟨"b", "init"⟩, ⟨5, "XUS"⟩, none, "rid", none⟩ "a"
      = Except.ok ()) := by
  constructor
  · exact (validate_addresses_sender_claim (fun _ => some (0 : ℕ))
      ⟨⟨"a", "init"⟩, ⟨"b", "init"⟩, ⟨5, "XUS"⟩, none, "rid", none⟩ "c"
      (by rfl) (by rfl)).1 (by decide) (by decide)
  · exact (validate_addresses_sender_claim (fun _ => some (0 : ℕ))
      ⟨⟨"a", "init"⟩, ⟨"b", "init"⟩, ⟨5, "XUS"⟩, none, "rid", none⟩ "a"
      (by rfl) (by rfl)).2 (Or.inl rfl)

theorem is_my_account_id_eq_direct {Addr : Type}
    (decode_account : String → Option Addr) (account_id_of : Addr → String)
    (get_account : Addr → Option (Account Addr)) (myId acct : String) (addr : Addr)
    (hdec : decode_account acct = some addr) (hdir : myId = account_id_of addr) :
    is_my_account_id decode_account account_id_of get_account myId acct
      = Except.ok true := by
  simp only [is_my_account_id, hdec]
  rw [if_pos hdir]

theorem is_my_account_id_eq_noaccount {Addr : Type}
    (decode_account : String → Option Addr) (account_id_of : Addr → String)
    (get_account : Addr → Option (Account Addr)) (myId acct : String) (addr : Addr)
    (hdec : decode_account acct = some addr) (hdir : myId ≠ account_id_of addr)
    (hacct : get_account addr = none) :
    is_my_account_id decode_account account_id_of get_account myId acct
      = Except.ok false := by
  simp only [is_my_account_id, hdec, hacct]
  rw [if_neg hdir]

theorem is_my_account_id_eq_noparent {Addr : Type}
    (decode_account : String → Option Addr) (account_id_of : Addr → String)
    (get_account : Addr → Option (Account Addr)) (myId acct : String) (addr : Addr)
    (account : Account Addr)
    (hdec : decode_account acct = some addr) (hdir : myId ≠ account_id_of addr)
    (hacct : get_account addr = some account)
    (hparent : account.role.parent_vasp_address = none) :
    is_my_account_id decode_account account_id_of get_account myId acct
      = Except.ok false := by
  simp only [is_my_account_id, hdec, hacct, hparent]
  rw [if_neg hdir]

theorem is_my_account_id_eq_parent {Addr : Type}
    (decode_account : String → Option Addr) (account_id_of : Addr → String)
    (get_account : Addr → Option (Account Addr)) (myId acct : String) (addr : Addr)
    (account : Account Addr) (parent : Addr)
    (hdec : decode_account acct = some addr) (hdir : myId ≠ account_id_of addr)
    (hacct : get_account addr = some account)
    (hparent : account.role.parent_vasp_address = some parent) :
    is_my_account_id decode_account account_id_of get_account myId acct
      = Except.ok (decide (myId = account_id_of parent)) := by
  simp only [is_my_account_id, hdec, hacct, hparent]
  rw [if_neg hdir]

/-- C5: when the account identifier decodes, `is_my_account_id` answers `true`
iff the decoded address re-encodes to the local compliance-key account id, or
the ledger record exists and declares a parent-VASP address that re-encodes to
the local compliance-key account id; with neither relation it answers
`false`. -/
theorem is_my_account_id_characterization {Addr : Type}
    (decode_account : String → Option Addr) (account_id_of : Addr → String)
    (get_account : Addr → Option (Account Addr))
    (myId : String) (acct : String) (addr : Addr)
    (hdec : decode_account acct = some addr) :
    (is_my_account_id decode_account account_id_of get_account myId acct
        = Except.ok true
      ↔ (myId = account_id_of addr
          ∨ ∃ account parent, get_account addr = some account
              ∧ account.role.parent_vasp_address = some parent
              ∧ myId = account_id_of parent))
    ∧ (myId ≠ account_id_of addr →
      (¬ ∃ account parent, get_account addr = some account
          ∧ account.role.parent_vasp_address = some parent
          ∧ myId = account_id_of parent) →
      is_my_account_id decode_account account_id_of get_account myId acct
        = Except.ok false) := by
  by_cases hdir : myId = account_id_of addr
  · rw [is_my_account_id_eq_direct decode_account account_id_of get_account myId acct addr
      hdec hdir]
    exact ⟨⟨fun _ => Or.inl hdir, fun _ => rfl⟩, fun h2 _ => absurd hdir h2⟩
  · cases hacct : get_account addr with
    | none =>
      rw [is_my_account_id_eq_noaccount decode_account account_id_of get_account myId acct
        addr hdec hdir hacct]
      refine ⟨⟨fun h => absurd h (by simp), ?_⟩, fun _ _ => rfl⟩
      rintro (h | ⟨account, parent, hsome, _⟩)
      · exact absurd h hdir
      · exact Option.noConfusion hsome
    | some account =>
      cases hparent : account.role.parent_vasp_address with
      | none =>
        rw [is_my_account_id_eq_noparent decode_account account_id_of get_account myId acct
          addr account hdec hdir hacct hparent]
        refine ⟨⟨fun h => absurd h (by simp), ?_⟩, fun _ _ => rfl⟩
        rintro (h | ⟨account2, parent2, hsome, hp, _⟩)
        · exact absurd h hdir
        · injection hsome with hacc
          rw [← hacc, hparent] at hp
          exact Option.noConfusion hp
      | some parent =>
        rw [is_my_account_id_eq_parent decode_account account_id_of get_account myId acct
          addr account parent hdec hdir hacct hparent]
        refine ⟨⟨?_, ?_⟩, ?_⟩
        · intro h
          injection h with hd
          exact Or.inr ⟨account, parent, rfl, hparent, of_decide_eq_true hd⟩
        · rintro (h | ⟨account2, parent2, hsome, hp, heq⟩)
          · exact absurd h hdir
          · injection hsome with hacc
            rw [← hacc, hparent] at hp
            injection hp with hpar
            rw [← hpar] at heq
            simp [heq]
        · intro hdir2 hnpar
          have hne : myId ≠ account_id_of parent := fun heq =>
            hnpar ⟨account, parent, rfl, hparent, heq⟩
          simp [hne]

/-- Witness for C5: local id "0", sub-account address 1 whose ledger record
declares parent 0 (which encodes to "0"): ownership resolves to `true`. -/
theorem is_my_account_id_characterization_witness :
    is_my_account_id (fun s => if s = "sub" then some 1 else none)
      (fun a : ℕ => toString a)
      (fun a => if a = 1 then some ⟨⟨some 0⟩⟩ else none) "0" "sub"
      = Except.ok true :=
  (is_my_account_id_characterization (fun s => if s = "sub" then some 1 else none)
      (fun a : ℕ => toString a)
      (fun a => if a = 1 then some ⟨⟨some 0⟩⟩ else none) "0" "sub" 1
      (by rfl)).1.mpr
    (Or.inr ⟨⟨⟨some 0⟩⟩, 0, by rfl, rfl, by rfl⟩)

/-- A concrete payment between distinct actor addresses "a" and "b", used to
settle C3. -/
def c3Payment : PaymentObject :=
  ⟨⟨"a", "init"⟩, ⟨"b", "init"⟩, ⟨5, "XUS"⟩, none, "rid", none⟩

/-- C3 as stated is false: with a local party that owns every address (for
instance a codec mapping every identifier to address 0, which encodes to the
local id), `create_inbound_payment_command` succeeds although BOTH actor
addresses resolve to the local party under `is_my_account_id`, so exactly one
does not. -/
theorem create_inbound_exactly_one_counterexample :
    (create_inbound_payment_command (fun _ => some (0 : ℕ)) (fun _ => "me")
        (fun _ => none) "me" "cid" c3Payment
      = Except.ok ⟨"cid", "a", c3Payment, true⟩)
    ∧ is_my_account_id (fun _ => some (0 : ℕ)) (fun _ => "me") (fun _ => none)
        "me" c3Payment.sender.address = Except.ok true
    ∧ is_my_account_id (fun _ => some (0 : ℕ)) (fun _ => "me") (fun _ => none)
        "me" c3Payment.receiver.address = Except.ok true
    ∧ c3Payment.sender.address ≠ c3Payment.receiver.address := by
  refine ⟨by rfl, by rfl, by rfl, by decide⟩

/-- C3 amended: for every `PaymentCommand` successfully built by
`create_inbound_payment_command`, AT LEAST one of the two payment actor
addresses resolves to the local party under `is_my_account_id` (both may), and
`my_actor_address` is the sender address when the sender resolves, otherwise
the receiver address. -/
theorem create_inbound_at_least_one_mine {Addr : Type}
    (decode_account : String → Option Addr) (account_id_of : Addr → String)
    (get_account : Addr → Option (Account Addr))
    (myId cid : String) (obj : PaymentObject) (cmd : PaymentCommand)
    (h : create_inbound_payment_command decode_account account_id_of get_account
        myId cid obj = Except.ok cmd) :
    (is_my_account_id decode_account account_id_of get_account myId
        obj.sender.address = Except.ok true
      ∨ is_my_account_id decode_account account_id_of get_account myId
        obj.receiver.address = Except.ok true)
    ∧ ((is_my_account_id decode_account account_id_of get_account myId
          obj.sender.address = Except.ok true
        ∧ cmd.my_actor_address = obj.sender.address)
      ∨ (is_my_account_id decode_account account_id_of get_account myId
          obj.sender.address = Except.ok false
        ∧ is_my_account_id decode_account account_id_of get_account myId
          obj.receiver.address = Except.ok true
        ∧ cmd.my_actor_address = obj.receiver.address))
    ∧ cmd.inbound = true ∧ cmd.payment = obj ∧ cmd.cid = cid := by
  unfold create_inbound_payment_command at h
  cases hs : is_my_account_id decode_account account_id_of get_account myId
      obj.sender.address with
  | error e => rw [hs] at h; exact Except.noConfusion h
  | ok b =>
    rw [hs] at h
    cases b with
    | true =>
      cases h
      exact ⟨Or.inl rfl, Or.inl ⟨rfl, rfl⟩, rfl, rfl, rfl⟩
    | false =>
      cases hr : is_my_account_id decode_account account_id_of get_account myId
          obj.receiver.address with
      | error e => rw [hr] at h; exact Except.noConfusion h
      | ok b2 =>
        rw [hr] at h
        cases b2 with
        | true =>
          cases h
          exact ⟨Or.inr rfl, Or.inr ⟨rfl, rfl, rfl⟩, rfl, rfl, rfl⟩
        | false => exact Except.noConfusion h

/-- Witness for the amended C3: the counterexample instantiation where both
actors resolve to the local party; the command is built on the sender. -/
theorem create_inbound_at_least_one_mine_witness :
    (is_my_account_id (fun _ => some (0 : ℕ)) (fun _ => "me") (fun _ => none)
        "me" c3Payment.sender.address = Except.ok true
      ∨ is_my_account_id (fun _ => some (0 : ℕ)) (fun _ => "me") (fun _ => none)
        "me" c3Payment.receiver.address = Except.ok true) :=
  (create_inbound_at_least_one_mine (fun _ => some (0 : ℕ)) (fun _ => "me")
    (fun _ => none) "me" "cid" c3Payment ⟨"cid", "a", c3Payment, true⟩ (by rfl)).1

/-! ### Hex decoding and recipient signature verification -/

/-- The value of one hexadecimal digit character, `none` for a non-digit. -/
def hexDigit (c : Char) : Option ℕ :=
  if '0' ≤ c ∧ c ≤ '9' then some (c.toNat - '0'.toNat)
  else if 'a' ≤ c ∧ c ≤ 'f' then some (c.toNat - 'a'.toNat + 10)
  else if 'A' ≤ c ∧ c ≤ 'F' then some (c.toNat - 'A'.toNat + 10)
  else none

/-- Python `bytes.fromhex` over the character list: spaces may separate bytes,
each byte is two consecutive hex digits; anything else is a `ValueError`. -/
def bytesFromHexAux : List Char → Option (List ℕ)
  | [] => some []
  | ' ' :: rest => bytesFromHexAux rest
  | c1 :: c2 :: rest =>
    match hexDigit c1, hexDigit c2 with
    | some hi, some lo => (bytesFromHexAux rest).map (fun bs => (16 * hi + lo) :: bs)
    | _, _ => none
  | _ :: [] => none

/-- Python `bytes.fromhex(s)`: `none` models the `ValueError` on invalid hex. -/
def bytesFromHex (s : String) : Option (List ℕ) :=
  bytesFromHexAux s.data

/-- `client.py` line 233: `validate_recipient_signature` derives the
travel-rule metadata signature message from the command and the network
prefix, hex-decodes the declared `recipient_signature`, and verifies it; an
absent signature, a hex `ValueError` or an `InvalidSignature` are all wrapped
as command error `invalid_recipient_signature` at
`command.payment.recipient_signature`.  The message derivation
(`PaymentCommand.travel_rule_metadata_signature_message`, not under `src/`)
and the Ed25519 verification under the given public key are parameters. -/
def validate_recipient_signature
    (travel_rule_metadata_signature_message : PaymentCommand → String → List ℕ)
    (verify : List ℕ → List ℕ → Bool)
    (hrp : String) (cmd : PaymentCommand) : Except OffchainErrorObject Unit :=
  let msg := travel_rule_metadata_signature_message cmd hrp
  match cmd.payment.recipient_signature with
  | none => Except.error (command_error ErrorCode.invalid_recipient_signature
      "recipient_signature is not provided" (some "command.payment.recipient_signature"))
  | some sig =>
    match bytesFromHex sig with
    | none => Except.error (command_error ErrorCode.invalid_recipient_signature
        ("non-hexadecimal number found in fromhex() arg: " ++ sig)
        (some "command.payment.recipient_signature"))
    | some sig_bytes =>
      if verify sig_bytes msg then Except.ok ()
      else Except.error (command_error ErrorCode.invalid_recipient_signature
          "signature was forged or corrupt" (some "command.payment.recipient_signature"))

/-! ### JWS envelope deserialization and inbound requests -/

/-- The failure cases of `jws.deserialize` (`diem.offchain.jws`, an external
interface per the spec) as caught at `client.py` lines 342-349: a JSON decode
failure, a schema `FieldError` carrying its own code and dotted field path, an
`InvalidSignature`, or any other envelope-format `ValueError`. -/
inductive JwsFailure where
  | jsonDecodeError (message : String)
  | fieldError (code : ErrorCode) (field : Option String) (message : String)
  | invalidSignature (message : String)
  | valueError (message : String)
deriving DecidableEq, Repr

/-- `client.py` line 335: `_deserialize_jws` maps each failure of
`jws.deserialize` onto a protocol-level error: JSON failure to `invalid_json`,
`FieldError` to its own code and field, `InvalidSignature` to
`invalid_jws_signature`, any other `ValueError` to `invalid_jws`. -/
def _deserialize_jws {T : Type} (klassName : String)
    (deserialize_result : Except JwsFailure T) : Except OffchainErrorObject T :=
  match deserialize_result with
  | Except.ok t => Except.ok t
  | Except.error (JwsFailure.jsonDecodeError e) =>
      Except.error (protocol_error ErrorCode.invalid_json
        ("decode json string failed: " ++ e) none)
  | Except.error (JwsFailure.fieldError code field e) =>
      Except.error (protocol_error code ("invalid " ++ klassName ++ " json: " ++ e) field)
  | Except.error (JwsFailure.invalidSignature e) =>
      Except.error (protocol_error ErrorCode.invalid_jws_signature
        ("invalid jws signature: " ++ e) none)
  | Except.error (JwsFailure.valueError e) =>
      Except.error (protocol_error ErrorCode.invalid_jws
        ("deserialize JWS bytes failed: " ++ e) none)

/-- The `X-Request-Sender-Address` HTTP header name
(`diem.offchain.http_header`, not under `src/`; named in the spec). -/
def X_REQUEST_SENDER_ADDRESS : String := "X-Request-Sender-Address"

/-- Modelled from the spec: `CommandRequestObject` of `diem.offchain.types`
(not under `src/`): a correlation id, a command type and a type-specific
payload (the payload is not consumed by the claims settled here). -/
structure CommandRequestObject where
  cid : String
  command_type : String
deriving DecidableEq, Repr

/-- `client.py` line 224: `get_inbound_request_sender_public_key` resolves the
base url and compliance key of the claimed sender, wrapping any resolution
`ValueError` as protocol error `invalid_http_header`.  The resolution
(`get_base_url_and_compliance_key`: identifier decoding plus the ledger
lookup) is a parameter returning `Except` a `ValueError` message. -/
def get_inbound_request_sender_public_key {Key : Type}
    (get_base_url_and_compliance_key : String → Except String (String × Key))
    (request_sender_address : String) : Except OffchainErrorObject Key :=
  match get_base_url_and_compliance_key request_sender_address with
  | Except.error e => Except.error (protocol_error ErrorCode.invalid_http_header e none)
  | Except.ok (_, public_key) => Except.ok public_key

/-- `client.py` line 173: `deserialize_inbound_request` requires a non-empty
claimed sender address (protocol error `missing_http_header` otherwise, before
any resolution), resolves the public key of the sender, then verifies and decodes
the request bytes through `_deserialize_jws`.  `jws_deserialize` models
`jws.deserialize(request_bytes, CommandRequestObject, public_key.verify)` as a
function of the resolved key. -/
def deserialize_inbound_request {Key : Type}
    (get_base_url_and_compliance_key : String → Except String (String × Key))
    (jws_deserialize : Key → Except JwsFailure CommandRequestObject)
    (request_sender_address : String) :
    Except OffchainErrorObject CommandRequestObject :=
  if request_sender_address = "" then
    Except.error (protocol_error ErrorCode.missing_http_header
      ("missing " ++ X_REQUEST_SENDER_ADDRESS) none)
  else
    match get_inbound_request_sender_public_key get_base_url_and_compliance_key
        request_sender_address with
    | Except.error e => Except.error e
    | Except.ok public_key =>
        _deserialize_jws "CommandRequestObject" (jws_deserialize public_key)

/-! ### Outbound send -/

/-- Modelled from the spec: the `status` field of a command response. -/
inductive CommandResponseStatus where
  | success
  | failure
deriving DecidableEq, Repr

/-- Modelled from the spec: `CommandResponseObject` of `diem.offchain.types`
(not under `src/`): mirrored correlation id and a success/failure status
(`client.py` consumes only `status`). -/
structure CommandResponseObject where
  cid : Option String
  status : CommandResponseStatus
deriving DecidableEq, Repr

/-- The failures `send_request` can raise: the transport error from
`raise_for_status` (`client.py` line 150), a protocol error from
`_deserialize_jws` on the response body, or `CommandResponseError`
(`client.py` line 41) carrying the full failing response. -/
inductive SendRequestFailure where
  | transport (status : ℕ)
  | protocolFailure (e : OffchainErrorObject)
  | commandResponse (resp : CommandResponseObject)
deriving DecidableEq, Repr

/-- `aiohttp.ClientResponse.raise_for_status` (external transport): raises a
client response error exactly when the HTTP status is at least 400, and is a
no-op below 400. -/
def raise_for_status (status : ℕ) : Except SendRequestFailure Unit :=
  if 400 ≤ status then Except.error (SendRequestFailure.transport status)
  else Except.ok ()

/-- `client.py` line 138: `send_request` calls `raise_for_status` when the
HTTP status is neither 200 nor 400, then verifies and decodes the response
body with the resolved public key of the counterparty, raises
`CommandResponseError` carrying the full response when its status is
`failure`, and returns it otherwise.  `jws_deserialize_response` models
`jws.deserialize(body, CommandResponseObject, public_key.verify)`. -/
def send_request (status : ℕ)
    (jws_deserialize_response : Except JwsFailure CommandResponseObject) :
    Except SendRequestFailure CommandResponseObject :=
  match (if status = 200 ∨ status = 400 then Except.ok () else raise_for_status status) with
  | Except.error e => Except.error e
  | Except.ok _ =>
    match _deserialize_jws "CommandResponseObject" jws_deserialize_response with
    | Except.error e => Except.error (SendRequestFailure.protocolFailure e)
    | Except.ok cmd_resp =>
        if cmd_resp.status = CommandResponseStatus.failure then
          Except.error (SendRequestFailure.commandResponse cmd_resp)
        else Except.ok cmd_resp

/-! ### Claims C2, C7, C6, C8 -/

theorem validate_recipient_signature_eq_nosig
    (tr_msg : PaymentCommand → String → List ℕ) (verify : List ℕ → List ℕ → Bool)
    (hrp : String) (cmd : PaymentCommand)
    (hsig : cmd.payment.recipient_signature = none) :
    validate_recipient_signature tr_msg verify hrp cmd
      = Except.error (command_error ErrorCode.invalid_recipient_signature
          "recipient_signature is not provided"
          (some "command.payment.recipient_signature")) := by
  simp [validate_recipient_signature, hsig]

theorem validate_recipient_signature_eq_badhex
    (tr_msg : PaymentCommand → String → List ℕ) (verify : List ℕ → List ℕ → Bool)
    (hrp : String) (cmd : PaymentCommand) (sig : String)
    (hsig : cmd.payment.recipient_signature = some sig)
    (hhex : bytesFromHex sig = none) :
    validate_recipient_signature tr_msg verify hrp cmd
      = Except.error (command_error ErrorCode.invalid_recipient_signature
          ("non-hexadecimal number found in fromhex() arg: " ++ sig)
          (some "command.payment.recipient_signature")) := by
  simp [validate_recipient_signature, hsig, hhex]

theorem validate_recipient_signature_eq_verified
    (tr_msg : PaymentCommand → String → List ℕ) (verify : List ℕ → List ℕ → Bool)
    (hrp : String) (cmd : PaymentCommand) (sig : String) (sig_bytes : List ℕ)
    (hsig : cmd.payment.recipient_signature = some sig)
    (hhex : bytesFromHex sig = some sig_bytes)
    (hv : verify sig_bytes (tr_msg cmd hrp) = true) :
    validate_recipient_signature tr_msg verify hrp cmd = Except.ok () := by
  simp [validate_recipient_signature, hsig, hhex, hv]

theorem validate_recipient_signature_eq_forged
    (tr_msg : PaymentCommand → String → List ℕ) (verify : List ℕ → List ℕ → Bool)
    (hrp : String) (cmd : PaymentCommand) (sig : String) (sig_bytes : List ℕ)
    (hsig : cmd.payment.recipient_signature = some sig)
    (hhex : bytesFromHex sig = some sig_bytes)
    (hv : verify sig_bytes (tr_msg cmd hrp) = false) :
    validate_recipient_signature tr_msg verify hrp cmd
      = Except.error (command_error ErrorCode.invalid_recipient_signature
          "signature was forged or corrupt"
          (some "command.payment.recipient_signature")) := by
  simp [validate_recipient_signature, hsig, hhex, hv]

/-- C2: `validate_recipient_signature` returns normally exactly when the
declared `recipient_signature` of the payment is present, hex-decodes, and verifies
over the travel-rule metadata signature message derived from the command and
the network prefix; every failure (absent signature, invalid hex, failed
verification) is a command-level error with code `invalid_recipient_signature`
at field `command.payment.recipient_signature`. -/
theorem validate_recipient_signature_characterization
    (tr_msg : PaymentCommand → String → List ℕ) (verify : List ℕ → List ℕ → Bool)
    (hrp : String) (cmd : PaymentCommand) :
    (validate_recipient_signature tr_msg verify hrp cmd = Except.ok ()
      ↔ ∃ sig sig_bytes, cmd.payment.recipient_signature = some sig
          ∧ bytesFromHex sig = some sig_bytes
          ∧ verify sig_bytes (tr_msg cmd hrp) = true)
    ∧ (∀ e, validate_recipient_signature tr_msg verify hrp cmd = Except.error e →
        e.typ = ErrorType.command ∧ e.code = ErrorCode.invalid_recipient_signature
          ∧ e.field = some "command.payment.recipient_signature") := by
  cases hsig : cmd.payment.recipient_signature with
  | none =>
    rw [validate_recipient_signature_eq_nosig tr_msg verify hrp cmd hsig]
    constructor
    · constructor
      · intro h
        exact Except.noConfusion h
      · rintro ⟨sig, sig_bytes, hs, _⟩
        exact Option.noConfusion hs
    · intro e he
      injection he with he2
      rw [← he2]
      exact ⟨rfl, rfl, rfl⟩
  | some sig =>
    cases hhex : bytesFromHex sig with
    | none =>
      rw [validate_recipient_signature_eq_badhex tr_msg verify hrp cmd sig hsig hhex]
      constructor
      · constructor
        · intro h
          exact Except.noConfusion h
        · rintro ⟨sig2, sig_bytes, hs, hb, _⟩
          injection hs with hs2
          rw [← hs2, hhex] at hb
          exact Option.noConfusion hb
      · intro e he
        injection he with he2
        rw [← he2]
        exact ⟨rfl, rfl, rfl⟩
    | some sig_bytes =>
      cases hv : verify sig_bytes (tr_msg cmd hrp) with
      | true =>
        rw [validate_recipient_signature_eq_verified tr_msg verify hrp cmd sig sig_bytes
          hsig hhex hv]
        constructor
        · exact ⟨fun _ => ⟨sig, sig_bytes, rfl, hhex, hv⟩, fun _ => rfl⟩
        · intro e he
          exact Except.noConfusion he
      | false =>
        rw [validate_recipient_signature_eq_forged tr_msg verify hrp cmd sig sig_bytes
          hsig hhex hv]
        constructor
        · constructor
          · intro h
            exact Except.noConfusion h
          · rintro ⟨sig2, sig_bytes2, hs, hb, hvr⟩
            injection hs with hs2
            rw [← hs2, hhex] at hb
            injection hb with hb2
            rw [← hb2, hv] at hvr
            exact Bool.noConfusion hvr
        · intro e he
          injection he with he2
          rw [← he2]
          exact ⟨rfl, rfl, rfl⟩

/-- Witness for C2: with the verifier accepting exactly the derived message,
the hex signature "ab" (the byte 171) verifies and the validation returns
normally. -/
theorem validate_recipient_signature_characterization_witness :
    validate_recipient_signature (fun _ _ => [171])
      (fun sig_bytes msg => sig_bytes == msg) "tdm"
      ⟨"cid", "a", ⟨⟨"a", "init"⟩, ⟨"b", "rsend"⟩, ⟨5, "XUS"⟩, some "ab", "rid", none⟩, true⟩
      = Except.ok () :=
  (validate_recipient_signature_characterization (fun _ _ => [171])
      (fun sig_bytes msg => sig_bytes == msg) "tdm"
      ⟨"cid", "a", ⟨⟨"a", "init"⟩, ⟨"b", "rsend"⟩, ⟨5, "XUS"⟩, some "ab", "rid", none⟩,
        true⟩).1.mpr
    ⟨"ab", [171], rfl, by rfl, by rfl⟩

/-- C7: `_deserialize_jws` maps envelope deserialization failures onto
protocol-level error codes exactly as specified: JSON decode failure to
`invalid_json`, signature verification failure to `invalid_jws_signature`, a
schema `FieldError` to a protocol error with the code of that very error and dotted
field path, any other envelope `ValueError` to `invalid_jws`; a success passes
through, and every produced error is protocol-level. -/
theorem deserialize_jws_error_mapping {T : Type} (klassName : String)
    (r : Except JwsFailure T) :
    (∀ e, r = Except.error (JwsFailure.jsonDecodeError e) →
      _deserialize_jws klassName r = Except.error (protocol_error ErrorCode.invalid_json
        ("decode json string failed: " ++ e) none))
    ∧ (∀ e, r = Except.error (JwsFailure.invalidSignature e) →
      _deserialize_jws klassName r = Except.error (protocol_error
        ErrorCode.invalid_jws_signature ("invalid jws signature: " ++ e) none))
    ∧ (∀ code field e, r = Except.error (JwsFailure.fieldError code field e) →
      _deserialize_jws klassName r = Except.error (protocol_error code
        ("invalid " ++ klassName ++ " json: " ++ e) field))
    ∧ (∀ e, r = Except.error (JwsFailure.valueError e) →
      _deserialize_jws klassName r = Except.error (protocol_error ErrorCode.invalid_jws
        ("deserialize JWS bytes failed: " ++ e) none))
    ∧ (∀ t, r = Except.ok t → _deserialize_jws klassName r = Except.ok t)
    ∧ (∀ err, _deserialize_jws klassName r = Except.error err →
        err.typ = ErrorType.protocol) := by
  refine ⟨?_, ?_, ?_, ?_, ?_, ?_⟩
  · intro e he
    rw [he]
    rfl
  · intro e he
    rw [he]
    rfl
  · intro code field e he
    rw [he]
    rfl
  · intro e he
    rw [he]
    rfl
  · intro t ht
    rw [ht]
    rfl
  · intro err herr
    cases r with
    | ok t =>
      simp only [_deserialize_jws] at herr
      exact Except.noConfusion herr
    | error f =>
      cases f with
      | jsonDecodeError e =>
        injection herr with h2
        rw [← h2]
        rfl
      | fieldError code field e =>
        injection herr with h2
        rw [← h2]
        rfl
      | invalidSignature e =>
        injection herr with h2
        rw [← h2]
        rfl
      | valueError e =>
        injection herr with h2
        rw [← h2]
        rfl

/-- Witness for C7: a JSON decoding failure surfaces as protocol error
`invalid_json`. -/
theorem deserialize_jws_error_mapping_witness :
    _deserialize_jws "CommandRequestObject"
        (Except.error (JwsFailure.jsonDecodeError "bad json") :
          Except JwsFailure CommandRequestObject)
      = Except.error (protocol_error ErrorCode.invalid_json
          ("decode json string failed: " ++ "bad json") none) :=
  (deserialize_jws_error_mapping "CommandRequestObject"
      (Except.error (JwsFailure.jsonDecodeError "bad json"))).1 "bad json" rfl

/-- C6: `deserialize_inbound_request` raises protocol error
`missing_http_header` on an empty claimed sender address, independently of the
resolution and envelope ports (so before any ledger lookup); wraps a
resolution `ValueError` as protocol error `invalid_http_header`; and when
resolution succeeds proceeds exactly to JWS verification and decoding of the
request bytes with the resolved key. -/
theorem deserialize_inbound_request_characterization {Key : Type}
    (resolve : String → Except String (String × Key))
    (jws_deserialize : Key → Except JwsFailure CommandRequestObject)
    (addr : String) :
    (deserialize_inbound_request resolve jws_deserialize ""
        = Except.error (protocol_error ErrorCode.missing_http_header
            ("missing " ++ X_REQUEST_SENDER_ADDRESS) none))
    ∧ (addr ≠ "" → ∀ e, resolve addr = Except.error e →
        deserialize_inbound_request resolve jws_deserialize addr
          = Except.error (protocol_error ErrorCode.invalid_http_header e none))
    ∧ (addr ≠ "" → ∀ base_url key, resolve addr = Except.ok (base_url, key) →
        deserialize_inbound_request resolve jws_deserialize addr
          = _deserialize_jws "CommandRequestObject" (jws_deserialize key)) := by
  refine ⟨rfl, ?_, ?_⟩
  · intro hne e he
    simp only [deserialize_inbound_request, if_neg hne,
      get_inbound_request_sender_public_key, he]
  · intro hne base_url key hk
    simp only [deserialize_inbound_request, if_neg hne,
      get_inbound_request_sender_public_key, hk]

/-- Witness for C6: a resolution failure on a non-empty claimed address is
wrapped as protocol error `invalid_http_header`. -/
theorem deserialize_inbound_request_characterization_witness :
    deserialize_inbound_request (fun _ => (Except.error "no such account" :
        Except String (String × Unit)))
      (fun _ => Except.error (JwsFailure.valueError "unused")) "someaddr"
      = Except.error (protocol_error ErrorCode.invalid_http_header
          "no such account" none) :=
  (deserialize_inbound_request_characterization
      (fun _ => (Except.error "no such account" : Except String (String × Unit)))
      (fun _ => Except.error (JwsFailure.valueError "unused")) "someaddr").2.1
    (by decide) "no such account" rfl

/-- C8 as stated is false: an HTTP status that is neither 200 nor 400 but
below 400 (here 204) does NOT raise a transport failure — the aiohttp
`raise_for_status` only raises at 400 and above — and `send_request` proceeds
to envelope verification and returns the verified response. -/
theorem send_request_transport_counterexample :
    ¬ (204 = 200 ∨ 204 = 400)
    ∧ send_request 204 (Except.ok ⟨some "cid", CommandResponseStatus.success⟩)
        = Except.ok ⟨some "cid", CommandResponseStatus.success⟩
    ∧ ∀ st, send_request 204 (Except.ok ⟨some "cid", CommandResponseStatus.success⟩)
        ≠ Except.error (SendRequestFailure.transport st) :=
  ⟨by decide, rfl, fun _ h => Except.noConfusion h⟩

/-- C8 amended: HTTP statuses 200 and 400 proceed to envelope verification; a
status outside {200, 400} raises the transport failure unmodified exactly when
it is at least 400, while a status below 400 also proceeds to verification
(the aiohttp `raise_for_status` is a no-op below 400); whenever verification is
reached, an envelope failure surfaces as the mapped protocol error, a verified
response with status `failure` raises `CommandResponseError` carrying the full
response object, and a verified response with status `success` is returned. -/
theorem send_request_characterization (status : ℕ)
    (jr : Except JwsFailure CommandResponseObject) :
    (¬ (status = 200 ∨ status = 400) → 400 ≤ status →
      send_request status jr = Except.error (SendRequestFailure.transport status))
    ∧ ((status = 200 ∨ status = 400 ∨ status < 400) →
      send_request status jr = send_request 200 jr)
    ∧ (∀ e, _deserialize_jws "CommandResponseObject" jr = Except.error e →
      send_request 200 jr = Except.error (SendRequestFailure.protocolFailure e))
    ∧ (∀ resp, _deserialize_jws "CommandResponseObject" jr = Except.ok resp →
      resp.status = CommandResponseStatus.failure →
      send_request 200 jr = Except.error (SendRequestFailure.commandResponse resp))
    ∧ (∀ resp, _deserialize_jws "CommandResponseObject" jr = Except.ok resp →
      resp.status = CommandResponseStatus.success →
      send_request 200 jr = Except.ok resp) := by
  have hcond : ((200 : ℕ) = 200 ∨ (200 : ℕ) = 400) := Or.inl rfl
  refine ⟨?_, ?_, ?_, ?_, ?_⟩
  · intro hne hge
    simp only [send_request, raise_for_status]
    rw [if_neg hne, if_pos hge]
  · intro hok
    have hgate : (if status = 200 ∨ status = 400 then Except.ok ()
        else raise_for_status status) = (Except.ok () : Except SendRequestFailure Unit) := by
      by_cases h2 : status = 200 ∨ status = 400
      · rw [if_pos h2]
      · have hlt : status < 400 := by
          rcases hok with h | h | h
          · exact absurd (Or.inl h) h2
          · exact absurd (Or.inr h) h2
          · exact h
        have hnge : ¬ 400 ≤ status := by omega
        rw [if_neg h2]
        simp only [raise_for_status]
        rw [if_neg hnge]
    simp only [send_request]
    rw [hgate]
    simp
  · intro e he
    simp [send_request, he]
  · intro resp hr hf
    simp [send_request, hr, hf]
  · intro resp hr hs
    simp [send_request, hr, hs]

/-- Witness for the amended C8: status 500 raises the transport failure, and
at status 200 a verified failure response raises `CommandResponseError`
carrying the response. -/
theorem send_request_characterization_witness :
    (send_request 500 (Except.ok ⟨some "cid", CommandResponseStatus.success⟩)
      = Except.error (SendRequestFailure.transport 500))
    ∧ (send_request 200 (Except.ok ⟨some "cid", CommandResponseStatus.failure⟩)
      = Except.error (SendRequestFailure.commandResponse
          ⟨some "cid", CommandResponseStatus.failure⟩)) :=
  ⟨(send_request_characterization 500
      (Except.ok ⟨some "cid", CommandResponseStatus.success⟩)).1 (by decide) (by decide),
   (send_request_characterization 200
      (Except.ok ⟨some "cid", CommandResponseStatus.failure⟩)).2.2.2.1
      ⟨some "cid", CommandResponseStatus.failure⟩ rfl rfl⟩

end DiemOffchain
